import Mathlib

/-!
# Booking back-office: shallow embedding and verification

Shallow embedding of `src/controllers/bookingController.js` (and the parts of
the Mongoose `Booking` schema it reads) from the `bookingback` repository,
together with theorems settling the frozen claims about the booking
normalizer/renderer and the CRUD handlers.

Modelling conventions for the JavaScript source:
* A field that may be `undefined`/`null` is an `Option`; `none` also stands for
  the other JS falsy values (`""` for strings, `0` for numbers) only where the
  helper functions below make the truthiness test explicit.
* `a || b` on strings is `jsOrStr` (empty string is falsy), on numbers
  `jsOrNum` (zero is falsy; `NaN` is not modelled), on arrays `jsOrList`
  (every array, the empty one included, is truthy), on objects plain
  `Option` matching (every object is truthy).
* JS numbers are restricted to `Int`: no claim involves fractional
  arithmetic, and display via `toString` agrees on integral values.
* `new Date(v).toISOString()` is host behaviour: a date-like stored value is
  either `JsDateVal.valid iso` (parses; `toISOString()` returns `iso`) or
  `JsDateVal.invalid raw` (`Invalid Date`; `toISOString()` throws a
  `RangeError`).  `Option JsDateVal` is `none` when the stored field is
  absent (or otherwise falsy).
* The PDF byte stream is abstracted to a `List DocItem`, one item per
  `doc.text(...)` call, keeping the font size and the `underline` flag of the
  call; section headings are exactly the items rendered at size 14 with
  `underline: true`, so they are distinguishable from free-form body text.
* `toUpperCase`/the PNR regex `[^A-Za-z0-9]` act on ASCII here, which is
  exact for every input the claims exercise.
-/

/-! ## JS value helpers -/

/-- Truthiness of an optional string: `undefined`, `null` and `""` are falsy. -/
def strTruthy : Option String → Bool
  | none => false
  | some s => !(s == "")

/-- `a || dflt` for strings: keep `a` when it is a truthy string. -/
def jsOrStr (a : Option String) (dflt : String) : String :=
  match a with
  | some s => if s == "" then dflt else s
  | none => dflt

/-- Truthiness of an optional number: `undefined`, `null` and `0` are falsy. -/
def numTruthy : Option Int → Bool
  | none => false
  | some n => !(n == 0)

/-- `a || dflt` for numbers: keep `a` when it is a truthy (nonzero) number. -/
def jsOrNum (a : Option Int) (dflt : Int) : Int :=
  if numTruthy a then a.getD 0 else dflt

/-- `a || b` where `a` is an optional array: every array is truthy in JS,
the empty array included, so a present `a` always wins. -/
def jsOrList (a : Option (List α)) (b : List α) : List α :=
  match a with
  | some l => l
  | none => b

/-- `if (x !== undefined) field = x` — wholesale replacement when provided. -/
def repl (incoming : Option α) (old : α) : α :=
  match incoming with
  | some v => v
  | none => old

/-- `String.prototype.toUpperCase()` (ASCII range, which covers every status
and PNR value the code produces). -/
def jsToUpper (s : String) : String :=
  ⟨s.data.map Char.toUpper⟩

/-- `.slice(0, 10)` — the first ten characters of a string. -/
def jsSlice10 (s : String) : String :=
  ⟨s.data.take 10⟩

/-! ## Date-like stored values

`new Date(v).toISOString().slice(0, 10)` from the renderer: host `Date`
behaviour is abstracted into whether the stored value parses. -/

/-- A truthy date-like stored value, as seen by `new Date(...)`. -/
inductive JsDateVal where
  /-- Parses; `toISOString()` yields `iso` (`YYYY-MM-DDTHH:mm:ss.sssZ`). -/
  | valid (iso : String)
  /-- `Invalid Date`; `toISOString()` throws a `RangeError`. -/
  | invalid (raw : String)
deriving Repr, DecidableEq

/-- The single error the rendering routine can raise: `RangeError` from
`Date.prototype.toISOString` on an `Invalid Date`. -/
inductive RenderError where
  | rangeError
deriving Repr, DecidableEq

/-- `new Date(v).toISOString().slice(0, 10)` on a truthy stored value. -/
def toIsoSlice10 : JsDateVal → Except RenderError String
  | .valid iso => .ok (jsSlice10 iso)
  | .invalid _ => .error .rangeError

/-- `x ? new Date(x).toISOString().slice(0, 10) : "—"` — the date cell used by
the travel-dates rows of the renderer. -/
def dateCell : Option JsDateVal → Except RenderError String
  | none => .ok "—"
  | some v => toIsoSlice10 v

/-! ## Data model (from the Booking schema and the fields the controller reads) -/

/-- Populated owning-agent reference (`.populate("agent", "name email")`);
`phone` is kept because the renderer reads it defensively. -/
structure AgentRef where
  _id : String
  name : Option String := none
  email : Option String := none
  phone : Option String := none
deriving Repr, DecidableEq

/-- A hotel stay; covers both the legacy single `hotel` object and the
entries of the revision `hotels` list (the renderer reads the union of
their fields). -/
structure Hotel where
  name : Option String := none
  hotelName : Option String := none
  roomType : Option String := none
  checkIn : Option String := none
  checkOut : Option String := none
deriving Repr, DecidableEq

/-- A visa passenger record; covers `visas.passengers` entries, entries of a
bare `visas` array, and the legacy single `visa` object (the renderer reads
the union of their fields). -/
structure VisaPassenger where
  name : Option String := none
  fullName : Option String := none
  nationality : Option String := none
  visaType : Option String := none
  passportNumber : Option String := none
deriving Repr, DecidableEq

/-- The stored `visas` field is polymorphic: either an object (possibly with a
`passengers` array) or a bare array. -/
inductive VisasField where
  | obj (count : Option Int) (passengers : Option (List VisaPassenger))
  | arr (items : List VisaPassenger)
deriving Repr, DecidableEq

/-- A transport leg (`TransportLegSchema`). -/
structure TransportLeg where
  «from» : Option String := none
  «to» : Option String := none
  vehicleType : Option String := none
  date : Option String := none
  time : Option String := none
deriving Repr, DecidableEq

/-- Revision `transportation` section. -/
structure Transportation where
  count : Option Int := none
  legs : Option (List TransportLeg) := none
deriving Repr, DecidableEq

/-- Legacy `transport` section (the renderer also reads a `count` off it). -/
structure Transport where
  transportType : Option String := none
  pickupLocation : Option String := none
  count : Option Int := none
  legs : Option (List TransportLeg) := none
deriving Repr, DecidableEq

/-- A cost line item; covers `costing.rows` entries (`item`) and `pricing.table`
entries (the renderer also reads `label`). -/
structure CostRow where
  label : Option String := none
  item : Option String := none
  quantity : Option Int := none
  costPerQty : Option Int := none
  salePerQty : Option Int := none
deriving Repr, DecidableEq

/-- Cost totals; covers the key variants of both shapes
(`totalCostPrice`/`totalSalePrice` and `totalCost`/`totalSale`). -/
structure Totals where
  totalCostPrice : Option Int := none
  totalSalePrice : Option Int := none
  totalCost : Option Int := none
  totalSale : Option Int := none
  profit : Option Int := none
deriving Repr, DecidableEq

/-- Revision `costing` section. -/
structure Costing where
  rows : Option (List CostRow) := none
  totals : Option Totals := none
deriving Repr, DecidableEq

/-- Legacy `pricing` section as the renderer reads it
(`pricing.table`, `pricing.totals`). -/
structure Pricing where
  table : Option (List CostRow) := none
  totals : Option Totals := none
deriving Repr, DecidableEq

/-- Legacy one-off `payment` section. -/
structure Payment where
  method : Option String := none
  cardLast4 : Option String := none
  cardholderName : Option String := none
deriving Repr, DecidableEq

/-- Revision `paymentReceived` section. -/
structure PaymentReceived where
  amount : Option Int := none
  method : Option String := none
  date : Option JsDateVal := none
  reference : Option String := none
deriving Repr, DecidableEq

/-- Revision `paymentDue` section. -/
structure PaymentDue where
  amount : Option Int := none
  method : Option String := none
  dueDate : Option JsDateVal := none
  notes : Option String := none
deriving Repr, DecidableEq

/-- `flightPayments.creditCard`. -/
structure CreditCardPay where
  amount : Option Int := none
  paidOn : Option String := none
deriving Repr, DecidableEq

/-- An entry of `flightPayments.installment.schedule`. -/
structure InstallmentItem where
  date : Option String := none
  amount : Option Int := none
deriving Repr, DecidableEq

/-- `flightPayments.installment`. -/
structure Installment where
  ticketTotal : Option Int := none
  advancePaid : Option Int := none
  numberOfInstallments : Option Int := none
  startDate : Option String := none
  remaining : Option Int := none
  perInstallment : Option Int := none
  schedule : Option (List InstallmentItem) := none
deriving Repr, DecidableEq

/-- Revision `flightPayments` section. -/
structure FlightPayments where
  mode : Option String := none
  creditCard : Option CreditCardPay := none
  installment : Option Installment := none
deriving Repr, DecidableEq

/-- Legacy `flight` section. -/
structure Flight where
  departureCity : Option String := none
  arrivalCity : Option String := none
  flightClass : Option String := none
  itinerary : Option String := none
deriving Repr, DecidableEq

/-- Revision `flights` section (pasted itinerary text). -/
structure Flights where
  raw : Option String := none
deriving Repr, DecidableEq

/-- The persisted booking record, restricted to the fields the claims and the
renderer touch (scalar fields no claim exercises — card data, passenger
counts, amounts — are elided). -/
structure Booking where
  _id : String := ""
  customerName : Option String := none
  customerEmail : Option String := none
  contactNumber : Option String := none
  package : Option String := none
  status : Option String := none
  approvalStatus : Option String := none
  agent : Option AgentRef := none
  date : Option JsDateVal := none
  departureDate : Option JsDateVal := none
  returnDate : Option JsDateVal := none
  departureCity : Option String := none
  arrivalCity : Option String := none
  flightClass : Option String := none
  pnr : Option String := none
  additionalServices : Option String := none
  paymentMethod : Option String := none
  flight : Option Flight := none
  flights : Option Flights := none
  hotel : Option Hotel := none
  hotels : Option (List Hotel) := none
  visa : Option VisaPassenger := none
  visas : Option VisasField := none
  transport : Option Transport := none
  transportation : Option Transportation := none
  costing : Option Costing := none
  pricing : Option Pricing := none
  payment : Option Payment := none
  paymentReceived : Option PaymentReceived := none
  paymentDue : Option PaymentDue := none
  flightPayments : Option FlightPayments := none
deriving Repr, DecidableEq

/-! ## Field normalization (the overlay lookups inside `getBookingPdf`) -/

/-- `const hotelsToShow = (booking.hotels && booking.hotels.length > 0)
? booking.hotels : (booking.hotel ? [booking.hotel] : []);` -/
def hotelsToShow (b : Booking) : List Hotel :=
  match b.hotels with
  | some hs =>
      if 0 < hs.length then hs
      else match b.hotel with
           | some h => [h]
           | none => []
  | none =>
      match b.hotel with
      | some h => [h]
      | none => []

/-- First operand of the visa chain: `booking.visas?.passengers` (a bare array
has no `passengers` property). -/
def visasPassengersProp : Option VisasField → Option (List VisaPassenger)
  | some (.obj _ ps) => ps
  | _ => none

/-- Second operand: `Array.isArray(booking.visas) ? booking.visas : []` —
always an array, hence always truthy. -/
def visasAsArray : Option VisasField → List VisaPassenger
  | some (.arr items) => items
  | _ => []

/-- `const visaPassengers = booking.visas?.passengers ||
(Array.isArray(booking.visas) ? booking.visas : []) ||
(booking.visa ? [booking.visa] : []);`
The middle operand always evaluates to an array, which is truthy in JS even
when empty, so the final legacy-`visa` operand is unreachable. -/
def visaPassengersOf (b : Booking) : List VisaPassenger :=
  jsOrList (visasPassengersProp b.visas)
    (jsOrList (some (visasAsArray b.visas))
      (match b.visa with
       | some v => [v]
       | none => []))

/-- `const transportLegs = booking.transportation?.legs ||
booking.transport?.legs || [];` -/
def transportLegsOf (b : Booking) : List TransportLeg :=
  jsOrList (b.transportation.bind (fun t => t.legs))
    (jsOrList (b.transport.bind (fun t => t.legs)) [])

/-- `const costingRows = booking.costing?.rows || booking.pricing?.table || [];` -/
def costingRowsOf (b : Booking) : List CostRow :=
  jsOrList (b.costing.bind (fun c => c.rows))
    (jsOrList (b.pricing.bind (fun p => p.table)) [])

/-- `const totals = booking.pricing?.totals || booking.costing?.totals || {};`
Note the order: the legacy `pricing` shape is consulted first here. -/
def totalsOf (b : Booking) : Totals :=
  match b.pricing.bind (fun p => p.totals) with
  | some t => t
  | none =>
      match b.costing.bind (fun c => c.totals) with
      | some t => t
      | none => {}


/-! ## Document renderer (the body of `getBookingPdf` after the HTTP checks)

One `DocItem` per `doc.text(...)` call, in emission order. -/

/-- One text emission of the PDF routine: the font size and `underline` flag of
the `doc.text` call, plus the text.  Section headings are exactly the items
with `size = 14` and `underline = true`. -/
structure DocItem where
  size : Nat
  underline : Bool
  text : String
deriving Repr, DecidableEq

/-- Branded header band: organization name and the booking identifier. -/
def headerItems (b : Booking) : List DocItem :=
  [⟨24, false, "MIQAT TRAVELS"⟩,
   ⟨10, false, "Booking ID: " ++ b._id⟩]

/-- `Status: ...` / `Approval: ...` side-by-side rows. -/
def statusItems (b : Booking) : List DocItem :=
  [⟨12, false, "Status: " ++ jsToUpper (jsOrStr b.status "pending")⟩,
   ⟨12, false, "Approval: " ++ jsToUpper (jsOrStr b.approvalStatus "pending")⟩]

/-- CUSTOMER INFORMATION section (always emitted). -/
def customerItems (b : Booking) : List DocItem :=
  let agentName :=
    match b.agent with
    | some a => jsOrStr a.name "Not Assigned"
    | none => "Not Assigned"
  let agentEmail :=
    match b.agent with
    | some a => jsOrStr a.email ""
    | none => ""
  let agentPhone :=
    match b.agent with
    | some a => jsOrStr a.phone ""
    | none => ""
  [⟨14, true, "CUSTOMER INFORMATION"⟩,
   ⟨11, false, "Name: " ++ jsOrStr b.customerName "—"⟩,
   ⟨11, false, "Email: " ++ jsOrStr b.customerEmail "—"⟩,
   ⟨11, false, "Phone: " ++ jsOrStr b.contactNumber "—"⟩,
   ⟨11, false, "Agent: " ++ agentName⟩] ++
  (if agentEmail == "" then [] else [⟨11, false, "Agent Email: " ++ agentEmail⟩]) ++
  (if agentPhone == "" then [] else [⟨11, false, "Agent Phone: " ++ agentPhone⟩])

/-- TRAVEL DATES section (always emitted); the three date rows format through
`toISOString` and can therefore raise on a malformed stored value. -/
def travelItems (b : Booking) : Except RenderError (List DocItem) :=
  match dateCell b.date, dateCell b.departureDate, dateCell b.returnDate with
  | .ok bookingDate, .ok dep, .ok ret =>
      .ok [⟨14, true, "TRAVEL DATES"⟩,
        ⟨11, false, "Booking Date: " ++ bookingDate⟩,
        ⟨11, false, "Departure: " ++ dep⟩,
        ⟨11, false, "Return: " ++ ret⟩,
        ⟨11, false, "Package: " ++ jsOrStr b.package "—"⟩]
  | .error e, _, _ => .error e
  | _, .error e, _ => .error e
  | _, _, .error e => .error e

/-- FLIGHT DETAILS section: the heading and the `Class:` row are emitted
unconditionally; route, PNR and itinerary rows are conditional. -/
def flightItems (b : Booking) : List DocItem :=
  let depCity := jsOrStr (b.flight.bind (fun f => f.departureCity)) (jsOrStr b.departureCity "")
  let arrCity := jsOrStr (b.flight.bind (fun f => f.arrivalCity)) (jsOrStr b.arrivalCity "")
  let flightClass := jsOrStr (b.flight.bind (fun f => f.flightClass)) (jsOrStr b.flightClass "economy")
  let itinerary := jsOrStr (b.flights.bind (fun f => f.raw)) (jsOrStr (b.flight.bind (fun f => f.itinerary)) "")
  [⟨14, true, "FLIGHT DETAILS"⟩] ++
  (if !(depCity == "") && !(arrCity == "") then
     [⟨11, false, "Route: " ++ depCity ++ " ✈ " ++ arrCity⟩]
   else []) ++
  [⟨11, false, "Class: " ++ flightClass⟩] ++
  (if strTruthy b.pnr then [⟨11, false, "PNR: " ++ jsOrStr b.pnr ""⟩] else []) ++
  (if itinerary == "" then []
   else ⟨12, false, "Flight Itinerary:"⟩ ::
     ((itinerary.splitOn "\n").filter (fun l => !(l.trim == ""))).map
       (fun l => ⟨10, false, l.trim⟩))

/-- One numbered hotel block. -/
def hotelBlock (index : Nat) (hotel : Hotel) : List DocItem :=
  [⟨10, false, "Hotel " ++ toString (index + 1) ++ ":"⟩,
   ⟨9, false, "  Name: " ++ jsOrStr hotel.name (jsOrStr hotel.hotelName "—")⟩,
   ⟨9, false, "  Room Type: " ++ jsOrStr hotel.roomType "—"⟩,
   ⟨9, false, "  Check-in: " ++ jsOrStr hotel.checkIn "—"⟩,
   ⟨9, false, "  Check-out: " ++ jsOrStr hotel.checkOut "—"⟩]

/-- Hotel Details section: emitted only when the normalized stay list is
non-empty; one ordinal-numbered block per stay, in stored order. -/
def hotelItems (b : Booking) : List DocItem :=
  let hs := hotelsToShow b
  if 0 < hs.length then
    ⟨14, true, "Hotel Details"⟩ :: (hs.enum.map (fun p => hotelBlock p.1 p.2)).flatten
  else []

/-- One numbered visa passenger block. -/
def visaBlock (index : Nat) (p : VisaPassenger) : List DocItem :=
  [⟨10, false, "Passenger " ++ toString (index + 1) ++ ":"⟩,
   ⟨9, false, "  Name: " ++ jsOrStr p.name (jsOrStr p.fullName "—")⟩,
   ⟨9, false, "  Nationality: " ++ jsOrStr p.nationality "—"⟩,
   ⟨9, false, "  Visa Type: " ++ jsOrStr p.visaType "—"⟩]

/-- Visa Details section: emitted only when the normalized passenger list is
non-empty. -/
def visaItems (b : Booking) : List DocItem :=
  let ps := visaPassengersOf b
  if 0 < ps.length then
    ⟨14, true, "Visa Details"⟩ ::
    ⟨10, false, "Total Visas: " ++ toString ps.length⟩ ::
    (ps.enum.map (fun p => visaBlock p.1 p.2)).flatten
  else []

/-- One numbered transport leg block. -/
def legBlock (index : Nat) (leg : TransportLeg) : List DocItem :=
  [⟨10, false, "Leg " ++ toString (index + 1) ++ ":"⟩,
   ⟨9, false, "  From: " ++ jsOrStr leg.«from» "—"⟩,
   ⟨9, false, "  To: " ++ jsOrStr leg.«to» "—"⟩,
   ⟨9, false, "  Vehicle: " ++ jsOrStr leg.vehicleType "—"⟩,
   ⟨9, false, "  Date: " ++ jsOrStr leg.date "—"⟩,
   ⟨9, false, "  Time: " ++ jsOrStr leg.time "—"⟩]

/-- `booking.transport?.transportType || booking.transport?.pickupLocation` —
the guard of the single-line transportation summary fallback. -/
def transportLooseCond (b : Booking) : Bool :=
  strTruthy (b.transport.bind (fun t => t.transportType)) ||
  strTruthy (b.transport.bind (fun t => t.pickupLocation))

/-- Transportation Details section: leg table when the normalized leg list is
non-empty, else a single-line summary when loose type/pickup strings exist,
else omitted. -/
def transportItems (b : Booking) : List DocItem :=
  let legs := transportLegsOf b
  if 0 < legs.length then
    ⟨14, true, "Transportation Details"⟩ ::
    ⟨10, false, "Total Legs: " ++
      toString (jsOrNum (b.transportation.bind (fun t => t.count))
        (jsOrNum (b.transport.bind (fun t => t.count)) (legs.length : Int)))⟩ ::
    (legs.enum.map (fun p => legBlock p.1 p.2)).flatten
  else if transportLooseCond b then
    [⟨14, true, "Transportation Details"⟩,
     ⟨10, false, "Type: " ++ jsOrStr (b.transport.bind (fun t => t.transportType)) "—"⟩,
     ⟨10, false, "Pickup: " ++ jsOrStr (b.transport.bind (fun t => t.pickupLocation)) "—"⟩]
  else []

/-- One cost line-item block. -/
def costRowBlock (index : Nat) (row : CostRow) : List DocItem :=
  [⟨10, false, jsOrStr row.label (jsOrStr row.item ("Item " ++ toString (index + 1))) ++ ":"⟩,
   ⟨9, false, "  Quantity: " ++ toString (jsOrNum row.quantity 0)⟩,
   ⟨9, false, "  Cost per Qty: " ++ toString (jsOrNum row.costPerQty 0)⟩,
   ⟨9, false, "  Sale per Qty: " ++ toString (jsOrNum row.salePerQty 0)⟩]

/-- Totals sub-block: shown when any of the four total keys is truthy on the
object selected by `totalsOf`. -/
def totalsItems (b : Booking) : List DocItem :=
  let t := totalsOf b
  if numTruthy t.totalCostPrice || numTruthy t.totalSalePrice ||
     numTruthy t.totalCost || numTruthy t.totalSale then
    [⟨10, true, "Totals:"⟩,
     ⟨9, false, "  Total Cost: " ++ toString (jsOrNum t.totalCostPrice (jsOrNum t.totalCost 0))⟩,
     ⟨9, false, "  Total Sale: " ++ toString (jsOrNum t.totalSalePrice (jsOrNum t.totalSale 0))⟩,
     ⟨9, false, "  Profit: " ++ toString (jsOrNum t.profit 0)⟩]
  else []

/-- Costing Details section: emitted only when the normalized row list is
non-empty. -/
def costingItems (b : Booking) : List DocItem :=
  let rows := costingRowsOf b
  if 0 < rows.length then
    ⟨14, true, "Costing Details"⟩ ::
    ((rows.enum.map (fun p => costRowBlock p.1 p.2)).flatten ++ totalsItems b)
  else []

/-- Additional Services section: emitted only when the field is truthy. -/
def additionalItems (b : Booking) : List DocItem :=
  if strTruthy b.additionalServices then
    [⟨14, true, "Additional Services"⟩,
     ⟨10, false, jsOrStr b.additionalServices ""⟩]
  else []

/-- Payment Received block; its `Date:` row is emitted only when the stored
date is truthy, formats through `toISOString`, and can raise. -/
def paymentReceivedItems : Option PaymentReceived → Except RenderError (List DocItem)
  | none => .ok []
  | some pr =>
      let base : List DocItem :=
        [⟨11, true, "Payment Received:"⟩,
         ⟨10, false, "  Amount: $" ++ toString (jsOrNum pr.amount 0)⟩,
         ⟨10, false, "  Method: " ++ jsOrStr pr.method "—"⟩]
      let refRows : List DocItem :=
        if strTruthy pr.reference then
          [⟨10, false, "  Reference: " ++ jsOrStr pr.reference ""⟩]
        else []
      match pr.date with
      | none => .ok (base ++ refRows)
      | some v =>
          match toIsoSlice10 v with
          | .error e => .error e
          | .ok s => .ok (base ++ [⟨10, false, "  Date: " ++ s⟩] ++ refRows)

/-- Payment Due block; its `Due Date:` row is emitted only when the stored
date is truthy, formats through `toISOString`, and can raise. -/
def paymentDueItems : Option PaymentDue → Except RenderError (List DocItem)
  | none => .ok []
  | some pd =>
      let base : List DocItem :=
        [⟨11, true, "Payment Due:"⟩,
         ⟨10, false, "  Amount: $" ++ toString (jsOrNum pd.amount 0)⟩,
         ⟨10, false, "  Method: " ++ jsOrStr pd.method "—"⟩]
      let noteRows : List DocItem :=
        if strTruthy pd.notes then
          [⟨10, false, "  Notes: " ++ jsOrStr pd.notes ""⟩]
        else []
      match pd.dueDate with
      | none => .ok (base ++ noteRows)
      | some v =>
          match toIsoSlice10 v with
          | .error e => .error e
          | .ok s => .ok (base ++ [⟨10, false, "  Due Date: " ++ s⟩] ++ noteRows)

/-- Legacy Payment Method block. -/
def legacyPaymentItems (b : Booking) : List DocItem :=
  match b.payment with
  | none => []
  | some p =>
      [⟨11, true, "Payment Method:"⟩,
       ⟨10, false, "  Method: " ++ jsOrStr p.method (jsOrStr b.paymentMethod "—")⟩] ++
      (if strTruthy p.cardLast4 then
         [⟨10, false, "  Card: ****" ++ jsOrStr p.cardLast4 ""⟩]
       else []) ++
      (if strTruthy p.cardholderName then
         [⟨10, false, "  Cardholder: " ++ jsOrStr p.cardholderName ""⟩]
       else [])

/-- Installment schedule entries (`inst.schedule && inst.schedule.length > 0`). -/
def scheduleItems : Option (List InstallmentItem) → List DocItem
  | none => []
  | some schedule =>
      if 0 < schedule.length then
        ⟨9, false, "  Schedule:"⟩ ::
        schedule.enum.map (fun p =>
          ⟨8, false, "    " ++ toString (p.1 + 1) ++ ". " ++
            jsOrStr p.2.date "—" ++ " - " ++ toString (jsOrNum p.2.amount 0)⟩)
      else []

/-- Flight Payment Plan block (credit-card / installment details). -/
def flightPaymentsItems (b : Booking) : List DocItem :=
  match b.flightPayments with
  | none => []
  | some fp =>
      [⟨11, true, "Flight Payment Plan:"⟩,
       ⟨10, false, "Payment Mode: " ++ jsOrStr fp.mode "—"⟩] ++
      (match fp.creditCard with
       | none => []
       | some cc =>
           [⟨9, false, "  Amount: " ++ toString (jsOrNum cc.amount 0)⟩,
            ⟨9, false, "  Paid On: " ++ jsOrStr cc.paidOn "—"⟩]) ++
      (match fp.installment with
       | none => []
       | some inst =>
           [⟨9, false, "  Ticket Total: " ++ toString (jsOrNum inst.ticketTotal 0)⟩,
            ⟨9, false, "  Advance Paid: " ++ toString (jsOrNum inst.advancePaid 0)⟩,
            ⟨9, false, "  Installments: " ++ toString (jsOrNum inst.numberOfInstallments 0)⟩,
            ⟨9, false, "  Start Date: " ++ jsOrStr inst.startDate "—"⟩,
            ⟨9, false, "  Remaining: " ++ toString (jsOrNum inst.remaining 0)⟩,
            ⟨9, false, "  Per Installment: " ++ toString (jsOrNum inst.perInstallment 0)⟩] ++
           scheduleItems inst.schedule)

/-- Payment Details section: the heading is emitted unconditionally; the
received/due/legacy/installment blocks are conditional. -/
def paymentItems (b : Booking) : Except RenderError (List DocItem) :=
  match paymentReceivedItems b.paymentReceived, paymentDueItems b.paymentDue with
  | .ok recv, .ok due =>
      .ok ([⟨14, true, "Payment Details"⟩] ++ recv ++ due ++
           legacyPaymentItems b ++ flightPaymentsItems b)
  | .error e, _ => .error e
  | _, .error e => .error e

/-- The whole rendering routine of `getBookingPdf` (after the HTTP-layer
checks), in source emission order.  Any date-like stored value that fails to
parse aborts rendering with `RenderError.rangeError`. -/
def renderBookingPdf (b : Booking) : Except RenderError (List DocItem) :=
  match travelItems b, paymentItems b with
  | .ok travel, .ok pay =>
      .ok (headerItems b ++ statusItems b ++ customerItems b ++ travel ++
           flightItems b ++ hotelItems b ++ visaItems b ++ transportItems b ++
           costingItems b ++ additionalItems b ++ pay)
  | .error e, _ => .error e
  | _, .error e => .error e

/-- The rendered items of a booking whose rendering succeeds. -/
def renderedItems (b : Booking) : List DocItem :=
  (renderBookingPdf b).toOption.getD []

/-! ## HTTP handlers -/

/-- `String(pnr).replace(/[^A-Za-z0-9]/g, "").toUpperCase()` — strip
non-alphanumerics, then upper-case. -/
def cleanPNR (s : String) : String :=
  ((s.toList.filter (fun c => c.isAlphanum)).map Char.toUpper).asString

/-- Resolved caller identity (`req.user`). -/
structure Caller where
  _id : String
  role : String
deriving Repr, DecidableEq

/-- `req.body ?? old` for the scalar fields updated with `??`. -/
def nullish (incoming old : Option α) : Option α :=
  match incoming with
  | some v => some v
  | none => old

/-- The destructured `createBooking` request body, restricted to the fields
the persisted model keeps. -/
structure CreateReq where
  customerName : Option String := none
  customerEmail : Option String := none
  package : Option String := none
  date : Option JsDateVal := none
  agent : Option String := none
  pnr : Option String := none
  flights : Option Flights := none
  hotels : Option (List Hotel) := none
  visas : Option VisasField := none
  transportation : Option Transportation := none
  costing : Option Costing := none
  flightPayments : Option FlightPayments := none
  status : Option String := none
  contactNumber : Option String := none
  departureDate : Option JsDateVal := none
  returnDate : Option JsDateVal := none
  additionalServices : Option String := none
  paymentMethod : Option String := none
  paymentReceived : Option PaymentReceived := none
  paymentDue : Option PaymentDue := none
  payment : Option Payment := none
  hotel : Option Hotel := none
  visa : Option VisaPassenger := none
  transport : Option Transport := none
  flight : Option Flight := none
deriving Repr, DecidableEq

/-- Outcome of `createBooking`: an HTTP error response or the created record. -/
inductive CreateResult where
  | error (status : Nat) (message : String)
  | created (booking : Booking)
deriving Repr, DecidableEq

/-- The record passed to `Booking.create(...)` (lines 389–438).  Note that the
stored `pnr` is `String(pnr).toUpperCase()` — the raw input upper-cased, not
the stripped `cleanPNR` the validation checked. -/
def mkCreatedBooking (req : CreateReq) (userId : String) : Booking :=
  { customerName := req.customerName
    customerEmail := req.customerEmail
    package := req.package
    date := req.date
    status := some (jsOrStr req.status "pending")
    agent := some { _id := jsOrStr req.agent userId }
    contactNumber := req.contactNumber
    departureDate := req.departureDate
    returnDate := req.returnDate
    additionalServices := req.additionalServices
    paymentMethod := req.paymentMethod
    flightClass :=
      if strTruthy (req.flight.bind (fun f => f.flightClass)) then
        req.flight.bind (fun f => f.flightClass)
      else none
    paymentReceived := req.paymentReceived
    paymentDue := req.paymentDue
    payment := req.payment
    pnr := if strTruthy req.pnr then some (jsToUpper (jsOrStr req.pnr "")) else none
    flights := req.flights
    hotels := req.hotels
    visas := req.visas
    transportation := req.transportation
    transport := req.transport
    costing := req.costing
    flightPayments := req.flightPayments
    hotel := req.hotel
    visa := req.visa
    flight := req.flight }

/-- `createBooking` (lines 322–446): required-field guard, then PNR
validation against the stripped+upper-cased value, then record creation. -/
def createBooking (req : CreateReq) (userId : String) : CreateResult :=
  if !strTruthy req.customerName || !strTruthy req.customerEmail ||
     !strTruthy req.package || !req.date.isSome then
    .error 400 "Missing required fields."
  else if strTruthy req.pnr && !((cleanPNR (jsOrStr req.pnr "")).length == 6) then
    .error 400 "PNR must be exactly 6 characters."
  else
    .created (mkCreatedBooking req userId)

/-- The `updateBooking` request body.  A doubly-optional field distinguishes
"absent from the body" (outer `none`, stored section untouched) from
"present" (outer `some`, stored section replaced wholesale, `null` included). -/
structure UpdateReq where
  pnr : Option String := none
  customerName : Option String := none
  customerEmail : Option String := none
  package : Option String := none
  date : Option JsDateVal := none
  status : Option String := none
  agent : Option (Option AgentRef) := none
  flights : Option (Option Flights) := none
  hotels : Option (Option (List Hotel)) := none
  visas : Option (Option VisasField) := none
  transportation : Option (Option Transportation) := none
  transport : Option (Option Transport) := none
  costing : Option (Option Costing) := none
  flightPayments : Option (Option FlightPayments) := none
  hotel : Option (Option Hotel) := none
  visa : Option (Option VisaPassenger) := none
  contactNumber : Option (Option String) := none
  departureDate : Option (Option JsDateVal) := none
  returnDate : Option (Option JsDateVal) := none
  additionalServices : Option (Option String) := none
  approvalStatus : Option (Option String) := none
  flightClass : Option (Option String) := none
  flight : Option Flight := none
  paymentReceived : Option (Option PaymentReceived) := none
  paymentDue : Option (Option PaymentDue) := none
  payment : Option (Option Payment) := none
  paymentMethod : Option (Option String) := none
deriving Repr, DecidableEq

/-- Outcome of `updateBooking`: an HTTP error response or the saved record. -/
inductive UpdateResult where
  | error (status : Nat) (message : String)
  | updated (booking : Booking)
deriving Repr, DecidableEq

/-- Field-by-field mutation of `updateBooking` (lines 514–567), after the PNR
guard: `??` for the original scalar fields, `if (x !== undefined)` wholesale
replacement for every section, and the nested `flight.flightClass` update. -/
def applyUpdateBody (b : Booking) (req : UpdateReq) : Booking :=
  let b := { b with
    customerName := nullish req.customerName b.customerName
    customerEmail := nullish req.customerEmail b.customerEmail
    package := nullish req.package b.package
    date := nullish req.date b.date
    status := nullish req.status b.status
    agent := repl req.agent b.agent
    flights := repl req.flights b.flights
    hotels := repl req.hotels b.hotels
    visas := repl req.visas b.visas
    transportation := repl req.transportation b.transportation
    transport := repl req.transport b.transport
    costing := repl req.costing b.costing
    flightPayments := repl req.flightPayments b.flightPayments
    hotel := repl req.hotel b.hotel
    visa := repl req.visa b.visa
    contactNumber := repl req.contactNumber b.contactNumber
    departureDate := repl req.departureDate b.departureDate
    returnDate := repl req.returnDate b.returnDate
    additionalServices := repl req.additionalServices b.additionalServices
    approvalStatus := repl req.approvalStatus b.approvalStatus
    flightClass := repl req.flightClass b.flightClass
    paymentReceived := repl req.paymentReceived b.paymentReceived
    paymentDue := repl req.paymentDue b.paymentDue
    payment := repl req.payment b.payment
    paymentMethod := repl req.paymentMethod b.paymentMethod }
  match req.flight.bind (fun f => f.flightClass) with
  | some fc =>
      let f0 := b.flight.getD {}
      { b with flight := some { f0 with flightClass := some fc } }
  | none => b

/-- `updateBooking` (lines 491–571): 404 guard, owner-or-admin guard, PNR
validation (storing the stripped+upper-cased value), then the body merge. -/
def updateBooking (found : Option Booking) (user : Caller) (req : UpdateReq) :
    UpdateResult :=
  match found with
  | none => .error 404 "Booking not found"
  | some b =>
      let isOwner :=
        match b.agent with
        | some a => a._id == user._id
        | none => user.role == "admin"
      if user.role != "admin" && !isOwner then
        .error 403 "Not authorized"
      else if strTruthy req.pnr then
        let clean := cleanPNR (jsOrStr req.pnr "")
        if !(clean.length == 6) then
          .error 400 "PNR must be exactly 6 characters."
        else
          .updated (applyUpdateBody { b with pnr := some clean } req)
      else
        .updated (applyUpdateBody b req)

deriving instance DecidableEq for Except

/-- Outcome of the `getBookingPdf` HTTP handler: an error response, or the
rendering routine's outcome on the found record. -/
inductive PdfResult where
  | error (status : Nat) (message : String)
  | rendered (doc : Except RenderError (List DocItem))
deriving Repr, DecidableEq

/-- `getBookingPdf` (lines 16–46): 404 when the record is absent; 403 only
when the caller is not an admin AND the booking has a populated agent whose
id differs from the caller's; otherwise the renderer runs. -/
def getBookingPdf (found : Option Booking) (user : Caller) : PdfResult :=
  match found with
  | none => .error 404 "Booking not found"
  | some booking =>
      if user.role != "admin" &&
         (match booking.agent with
          | some a => !(a._id == user._id)
          | none => false) then
        .error 403 "Not authorized"
      else
        .rendered (renderBookingPdf booking)

/-- Outcome of `approveBooking`/`rejectBooking`. -/
inductive ApproveResult where
  | error (status : Nat) (message : String)
  | success (message : String) (booking : Booking)
deriving Repr, DecidableEq

/-- `approveBooking` (lines 615–633): admin only; sets
`approvalStatus = "approved"` and `status = "confirmed"` together. -/
def approveBooking (found : Option Booking) (user : Caller) : ApproveResult :=
  match found with
  | none => .error 404 "Booking not found"
  | some b =>
      if user.role != "admin" then .error 403 "Not authorized"
      else .success "Booking approved"
        { b with approvalStatus := some "approved", status := some "confirmed" }

/-- `rejectBooking` (lines 641–659): admin only; sets
`approvalStatus = "rejected"` and `status = "cancelled"` together. -/
def rejectBooking (found : Option Booking) (user : Caller) : ApproveResult :=
  match found with
  | none => .error 404 "Booking not found"
  | some b =>
      if user.role != "admin" then .error 403 "Not authorized"
      else .success "Booking rejected"
        { b with approvalStatus := some "rejected", status := some "cancelled" }

/-- The stored PNR of a successful creation, when one happened. -/
def CreateResult.pnrOf : CreateResult → Option (Option String)
  | .created b => some b.pnr
  | _ => none

/-- The stored PNR of a successful update, when one happened. -/
def UpdateResult.pnrOf : UpdateResult → Option (Option String)
  | .updated b => some b.pnr
  | _ => none


/-! ## Concrete records used by counterexamples and witnesses -/


/-- A minimal valid booking used as a witness base. -/
def sampleBooking : Booking :=
  { _id := "b1", customerName := some "A. Khan", customerEmail := some "a@x.com",
    package := some "Umrah 10D", date := some (.valid "2024-05-01T00:00:00.000Z"),
    status := some "pending", agent := some { _id := "u1" } }

/-- A `createBooking` body whose PNR is `"ab-12c3"`: the stripped,
upper-cased form `"AB12C3"` has 6 characters, so validation accepts it. -/
def pnrCreateReq : CreateReq :=
  { customerName := some "A. Khan", customerEmail := some "a@x.com",
    package := some "Umrah 10D", date := some (.valid "2024-05-01T00:00:00.000Z"),
    pnr := some "ab-12c3" }

/-- A record populating cost totals under both shapes with different values. -/
def bothTotalsBooking : Booking :=
  { _id := "b2", customerName := some "A. Khan",
    costing := some
      { rows := some [{ item := some "Visa fee", quantity := some 2,
                        costPerQty := some 3, salePerQty := some 4 }],
        totals := some { totalCost := some 5, totalSale := some 9, profit := some 4 } },
    pricing := some
      { table := some [{ label := some "Old row" }],
        totals := some { totalCostPrice := some 7, totalSalePrice := some 11 } } }

/-- A record whose only visa data is the single legacy `visa` object. -/
def legacyVisaBooking : Booking :=
  { _id := "b3", customerName := some "A. Khan",
    visa := some { visaType := some "Umrah", nationality := some "PK",
                   passportNumber := some "AB123456" } }

/-- A record with no hotel, visa, transport, or costing data. -/
def bareBooking : Booking :=
  { _id := "b4", customerName := some "A. Khan", customerEmail := some "a@x.com",
    package := some "Umrah 10D", date := some (.valid "2024-05-01T00:00:00.000Z") }

/-- A record whose stored booking date fails to parse. -/
def invalidDateBooking : Booking :=
  { bareBooking with _id := "b5", date := some (.invalid "not-a-date") }

/-- A record with no owning agent reference. -/
def orphanBooking : Booking :=
  { _id := "b9", customerName := some "A. Khan" }

/-- A non-admin caller who does not own any of the sample records. -/
def strangerCaller : Caller := { _id := "u7", role := "agent" }

/-- An admin caller. -/
def adminCaller : Caller := { _id := "a1", role := "admin" }

/-- A legacy hotel object used by the hotel-fallback witness. -/
def hiltonHotel : Hotel :=
  { name := some "Hilton", checkIn := some "2024-05-02", checkOut := some "2024-05-09" }

/-- A record with an empty `hotels` list and a single legacy `hotel` object. -/
def legacyHotelBooking : Booking :=
  { _id := "b6", customerName := some "A. Khan",
    hotels := some [], hotel := some hiltonHotel }

/-- A record exercising every date-rendering case: absent booking/return
dates, a valid departure date, a payment-received date, and a payment-due
entry without a due date. -/
def dateShowBooking : Booking :=
  { _id := "b7", customerName := some "A. Khan",
    date := none,
    departureDate := some (.valid "2024-05-10T00:00:00.000Z"),
    returnDate := none,
    paymentReceived := some { amount := some 100, method := some "cash",
                              date := some (.valid "2024-05-03T12:30:00.000Z") },
    paymentDue := some { amount := some 50, dueDate := none } }

/-- An update body replacing `hotels` and `paymentDue` and leaving every other
section absent. -/
def sectionUpdateReq : UpdateReq :=
  { hotels := some (some [hiltonHotel]),
    paymentDue := some (some { amount := some 250, method := some "bank" }) }

/-! ## Claims -/

/-- C7: For every existing booking, `approveBooking` (necessarily called by an
admin, since any other caller gets a 403) results in
`approvalStatus = "approved"` and `status = "confirmed"` together, and
`rejectBooking` results in `approvalStatus = "rejected"` and
`status = "cancelled"` together; neither operation leaves the pair in any
other combination. -/
theorem approve_reject_set_status_pairs
    (found : Option Booking) (user : Caller) (m1 m2 : String) (b1 b2 : Booking)
    (hA : approveBooking found user = .success m1 b1)
    (hR : rejectBooking found user = .success m2 b2) :
    (b1.approvalStatus = some "approved" ∧ b1.status = some "confirmed") ∧
    (b2.approvalStatus = some "rejected" ∧ b2.status = some "cancelled") := by
  cases found with
  | none => simp [approveBooking] at hA
  | some b =>
      by_cases hr : user.role = "admin"
      · simp [approveBooking, rejectBooking, hr] at hA hR
        obtain ⟨-, hb1⟩ := hA
        obtain ⟨-, hb2⟩ := hR
        subst hb1
        subst hb2
        exact ⟨⟨rfl, rfl⟩, ⟨rfl, rfl⟩⟩
      · simp [approveBooking, hr] at hA

/-- Witness for C7 at a concrete booking and admin caller. -/
theorem approve_reject_set_status_pairs_witness :
    ({ sampleBooking with
        approvalStatus := some "approved",
        status := some "confirmed" } : Booking).approvalStatus = some "approved" ∧
    ({ sampleBooking with
        approvalStatus := some "approved",
        status := some "confirmed" } : Booking).status = some "confirmed" ∧
    ({ sampleBooking with
        approvalStatus := some "rejected",
        status := some "cancelled" } : Booking).approvalStatus = some "rejected" ∧
    ({ sampleBooking with
        approvalStatus := some "rejected",
        status := some "cancelled" } : Booking).status = some "cancelled" := by
  have h := approve_reject_set_status_pairs (some sampleBooking) adminCaller
    "Booking approved" "Booking rejected"
    { sampleBooking with approvalStatus := some "approved", status := some "confirmed" }
    { sampleBooking with approvalStatus := some "rejected", status := some "cancelled" }
    (by decide) (by decide)
  exact ⟨h.1.1, h.1.2, h.2.1, h.2.2⟩

/-- C10: Every `createBooking` request missing (or carrying an empty)
`customerName`, `customerEmail`, `package` or `date` is answered with status
400 and the message `"Missing required fields."`; no record is created, so
the stored state is unchanged and neither the PNR check nor the agent
assignment is reached. -/
theorem create_missing_required_fields_rejected (req : CreateReq) (userId : String)
    (hmiss : (!strTruthy req.customerName || !strTruthy req.customerEmail ||
              !strTruthy req.package || !req.date.isSome) = true) :
    createBooking req userId = .error 400 "Missing required fields." ∧
    ∀ b, createBooking req userId ≠ .created b := by
  have h : createBooking req userId = .error 400 "Missing required fields." := by
    unfold createBooking
    rw [if_pos hmiss]
  refine ⟨h, fun b hb => ?_⟩
  rw [h] at hb
  exact CreateResult.noConfusion hb

/-- Witness for C10: `customerEmail` missing and an invalid PNR — the reply is
the missing-fields 400, showing the PNR check was not reached. -/
theorem create_missing_required_fields_rejected_witness :
    createBooking { customerName := some "A. Khan", package := some "Umrah 10D",
                    date := some (.valid "2024-05-01T00:00:00.000Z"),
                    pnr := some "xx" } "u1" =
      .error 400 "Missing required fields." ∧
    createBooking { customerName := some "A. Khan", package := some "Umrah 10D",
                    date := some (.valid "2024-05-01T00:00:00.000Z"),
                    pnr := some "xx" } "u1" ≠ .created sampleBooking := by
  have h := create_missing_required_fields_rejected
    { customerName := some "A. Khan", package := some "Umrah 10D",
      date := some (.valid "2024-05-01T00:00:00.000Z"), pnr := some "xx" }
    "u1" (by decide)
  exact ⟨h.1, h.2 sampleBooking⟩

/-- C8: The rendered hotel blocks come from the `hotels` list whenever it is
non-empty (the list wins over the legacy object); with an empty or absent
list and a legacy `hotel` object, exactly one block is rendered, sourced from
the legacy object; with neither, no hotel section is emitted at all. -/
theorem hotels_list_wins_legacy_fallback (b : Booking) :
    (∀ hs, b.hotels = some hs → hs ≠ [] →
       hotelsToShow b = hs ∧
       hotelItems b = ⟨14, true, "Hotel Details"⟩ ::
         (hs.enum.map (fun p => hotelBlock p.1 p.2)).flatten) ∧
    (∀ h, (b.hotels = none ∨ b.hotels = some []) → b.hotel = some h →
       hotelsToShow b = [h] ∧
       hotelItems b = ⟨14, true, "Hotel Details"⟩ :: hotelBlock 0 h) ∧
    ((b.hotels = none ∨ b.hotels = some []) → b.hotel = none →
       hotelsToShow b = [] ∧ hotelItems b = []) := by
  refine ⟨?_, ?_, ?_⟩
  · intro hs hh hne
    have hpos : 0 < hs.length := List.length_pos.mpr hne
    have hshow : hotelsToShow b = hs := by
      simp [hotelsToShow, hh, hpos]
    refine ⟨hshow, ?_⟩
    simp [hotelItems, hshow, hpos]
  · intro h hcase hh
    have hshow : hotelsToShow b = [h] := by
      rcases hcase with h0 | h0 <;> simp [hotelsToShow, h0, hh]
    refine ⟨hshow, ?_⟩
    simp [hotelItems, hshow, List.enum, List.enumFrom]
  · intro hcase hh
    rcases hcase with h0 | h0 <;> simp [hotelsToShow, hotelItems, h0, hh]

/-- Witness for C8 at the legacy-fallback record (empty `hotels`, one legacy
`hotel`): exactly one block, sourced from the legacy object. -/
theorem hotels_list_wins_legacy_fallback_witness :
    hotelsToShow legacyHotelBooking = [hiltonHotel] ∧
    hotelItems legacyHotelBooking =
      ⟨14, true, "Hotel Details"⟩ :: hotelBlock 0 hiltonHotel := by
  exact (hotels_list_wins_legacy_fallback legacyHotelBooking).2.1 hiltonHotel
    (Or.inr rfl) rfl

/-- The body merge of `updateBooking` never touches the already-set `pnr`. -/
theorem applyUpdateBody_pnr (b : Booking) (req : UpdateReq) :
    (applyUpdateBody b req).pnr = b.pnr := by
  unfold applyUpdateBody
  cases hfc : req.flight.bind (fun f => f.flightClass) <;> simp [hfc]

/-- C1 (amended): both operations validate the PNR against its stripped,
upper-cased normalization and accept only a 6-character result;
`updateBooking` stores that normalized value, but `createBooking` stores the
raw input merely upper-cased, with non-alphanumeric characters retained. -/
theorem pnr_validated_normalized_create_stores_raw :
    (∀ (req : CreateReq) (uid : String),
        (!strTruthy req.customerName || !strTruthy req.customerEmail ||
         !strTruthy req.package || !req.date.isSome) = false →
        strTruthy req.pnr = true →
        (cleanPNR (jsOrStr req.pnr "")).length ≠ 6 →
        createBooking req uid = .error 400 "PNR must be exactly 6 characters.") ∧
    (∀ (req : CreateReq) (uid : String) (b : Booking),
        createBooking req uid = .created b → strTruthy req.pnr = true →
        (cleanPNR (jsOrStr req.pnr "")).length = 6 ∧
        b.pnr = some (jsToUpper (jsOrStr req.pnr ""))) ∧
    (∀ (found : Option Booking) (user : Caller) (req : UpdateReq),
        strTruthy req.pnr = true →
        (cleanPNR (jsOrStr req.pnr "")).length ≠ 6 →
        ∀ b2, updateBooking found user req ≠ .updated b2) ∧
    (∀ (found : Option Booking) (user : Caller) (req : UpdateReq) (b2 : Booking),
        updateBooking found user req = .updated b2 → strTruthy req.pnr = true →
        (cleanPNR (jsOrStr req.pnr "")).length = 6 ∧
        b2.pnr = some (cleanPNR (jsOrStr req.pnr ""))) := by
  refine ⟨?_, ?_, ?_, ?_⟩
  · intro req uid hreq hp hlen
    have h1 : ¬((!strTruthy req.customerName || !strTruthy req.customerEmail ||
        !strTruthy req.package || !req.date.isSome) = true) := by
      intro hcontra
      rw [hreq] at hcontra
      exact Bool.noConfusion hcontra
    have h2 : (strTruthy req.pnr &&
        !((cleanPNR (jsOrStr req.pnr "")).length == 6)) = true := by
      simp [hp, hlen]
    unfold createBooking
    rw [if_neg h1, if_pos h2]
  · intro req uid b hc hp
    unfold createBooking at hc
    split at hc
    · exact CreateResult.noConfusion hc
    split at hc
    · exact CreateResult.noConfusion hc
    · rename_i h1 h2
      injection hc with hb
      subst hb
      constructor
      · by_contra hne
        exact h2 (by simp [hp, hne])
      · simp [mkCreatedBooking, hp]
  · intro found user req hp hlen b2 hu
    cases found with
    | none => exact UpdateResult.noConfusion hu
    | some b =>
        simp only [updateBooking] at hu
        simp [hp, hlen] at hu
        split at hu
        · exact UpdateResult.noConfusion hu
        · exact UpdateResult.noConfusion hu
  · intro found user req b2 hu hp
    cases found with
    | none => exact UpdateResult.noConfusion hu
    | some b =>
        simp only [updateBooking] at hu
        by_cases hl : (cleanPNR (jsOrStr req.pnr "")).length = 6
        · refine ⟨hl, ?_⟩
          simp [hp, hl] at hu
          split at hu
          · exact UpdateResult.noConfusion hu
          · injection hu with hb
            subst hb
            rw [applyUpdateBody_pnr]
        · exfalso
          simp [hp, hl] at hu
          split at hu
          · exact UpdateResult.noConfusion hu
          · exact UpdateResult.noConfusion hu

/-- C1 counterexample: `createBooking` accepts the PNR `"ab-12c3"` (its
normalization `"AB12C3"` has 6 characters) but stores `"AB-12C3"` — the raw
input upper-cased with the dash retained, not the normalized value. -/
theorem createBooking_stores_unstripped_pnr :
    (createBooking pnrCreateReq "u1").pnrOf = some (some "AB-12C3") ∧
    cleanPNR "ab-12c3" = "AB12C3" ∧
    ("AB-12C3" : String) ≠ "AB12C3" := by decide

/-- Witness for C1 at concrete requests on both operations. -/
theorem pnr_validated_normalized_create_stores_raw_witness :
    createBooking { pnrCreateReq with pnr := some "ab-12" } "u1" =
      .error 400 "PNR must be exactly 6 characters." ∧
    (mkCreatedBooking pnrCreateReq "u1").pnr =
      some (jsToUpper (jsOrStr pnrCreateReq.pnr "")) ∧
    updateBooking (some sampleBooking) adminCaller { pnr := some "ab-12" } ≠
      .updated sampleBooking ∧
    (applyUpdateBody { sampleBooking with pnr := some (cleanPNR "ab-12c3") }
      ({ pnr := some "ab-12c3" } : UpdateReq)).pnr =
        some (cleanPNR (jsOrStr (some "ab-12c3") "")) := by
  refine ⟨?_, ?_, ?_, ?_⟩
  · exact pnr_validated_normalized_create_stores_raw.1
      { pnrCreateReq with pnr := some "ab-12" } "u1" (by decide) (by decide) (by decide)
  · exact (pnr_validated_normalized_create_stores_raw.2.1 pnrCreateReq "u1"
      (mkCreatedBooking pnrCreateReq "u1") (by decide) (by decide)).2
  · exact pnr_validated_normalized_create_stores_raw.2.2.1
      (some sampleBooking) adminCaller { pnr := some "ab-12" }
      (by decide) (by decide) sampleBooking
  · exact (pnr_validated_normalized_create_stores_raw.2.2.2
      (some sampleBooking) adminCaller { pnr := some "ab-12c3" }
      (applyUpdateBody { sampleBooking with pnr := some (cleanPNR "ab-12c3") }
        { pnr := some "ab-12c3" })
      (by decide) (by decide)).2

/-- C2 (amended): with both shapes populated, the revision shape wins for
hotel stays (`hotels` over `hotel`), transport legs (`transportation.legs`
over `transport.legs`) and cost line items (`costing.rows` over
`pricing.table`); for cost totals, however, the legacy `pricing.totals`
wins over `costing.totals`. -/
theorem revision_shape_wins_except_cost_totals (b : Booking) :
    (∀ hs, b.hotels = some hs → 0 < hs.length → hotelsToShow b = hs) ∧
    (∀ t legs, b.transportation = some t → t.legs = some legs →
       transportLegsOf b = legs) ∧
    (∀ c rows, b.costing = some c → c.rows = some rows →
       costingRowsOf b = rows) ∧
    (∀ p tt, b.pricing = some p → p.totals = some tt → totalsOf b = tt) := by
  refine ⟨?_, ?_, ?_, ?_⟩
  · intro hs hh hpos
    simp [hotelsToShow, hh, hpos]
  · intro t legs ht hl
    simp [transportLegsOf, jsOrList, ht, hl]
  · intro c rows hc hr
    simp [costingRowsOf, jsOrList, hc, hr]
  · intro p tt hp ht
    simp [totalsOf, hp, ht]

/-- C2 counterexample: with cost totals populated under both shapes, the
rendered totals come from the legacy `pricing.totals` (total cost 7), not
from the revision `costing.totals` (total cost 5). -/
theorem cost_totals_rendered_from_legacy_pricing :
    totalsOf bothTotalsBooking =
      { totalCostPrice := some 7, totalSalePrice := some 11 } ∧
    bothTotalsBooking.costing.bind (fun c => c.totals) =
      some { totalCost := some 5, totalSale := some 9, profit := some 4 } ∧
    (⟨9, false, "  Total Cost: 7"⟩ : DocItem) ∈ renderedItems bothTotalsBooking ∧
    (⟨9, false, "  Total Cost: 5"⟩ : DocItem) ∉ renderedItems bothTotalsBooking := by
  decide

/-- Witness for C2 at concrete records populating both shapes. -/
theorem revision_shape_wins_except_cost_totals_witness :
    hotelsToShow { hotels := some [hiltonHotel], hotel := some {} } = [hiltonHotel] ∧
    transportLegsOf
      { transportation := some { legs := some [{ «from» := some "JED" }] },
        transport := some { legs := some [{ «from» := some "OLD" }] } } =
      [{ «from» := some "JED" }] ∧
    costingRowsOf bothTotalsBooking =
      [{ item := some "Visa fee", quantity := some 2,
         costPerQty := some 3, salePerQty := some 4 }] ∧
    totalsOf bothTotalsBooking =
      { totalCostPrice := some 7, totalSalePrice := some 11 } := by
  refine ⟨?_, ?_, ?_, ?_⟩
  · exact (revision_shape_wins_except_cost_totals
      { hotels := some [hiltonHotel], hotel := some {} }).1 [hiltonHotel] rfl (by decide)
  · exact (revision_shape_wins_except_cost_totals
      { transportation := some { legs := some [{ «from» := some "JED" }] },
        transport := some { legs := some [{ «from» := some "OLD" }] } }).2.1
      { legs := some [{ «from» := some "JED" }] } [{ «from» := some "JED" }] rfl rfl
  · exact (revision_shape_wins_except_cost_totals bothTotalsBooking).2.2.1
      (bothTotalsBooking.costing.get (by decide))
      [{ item := some "Visa fee", quantity := some 2,
         costPerQty := some 3, salePerQty := some 4 }] (by decide) (by decide)
  · exact (revision_shape_wins_except_cost_totals bothTotalsBooking).2.2.2
      (bothTotalsBooking.pricing.get (by decide))
      { totalCostPrice := some 7, totalSalePrice := some 11 } (by decide) (by decide)

/-- C3: a record whose only visa data is the single legacy `visa` object
normalizes to the empty passenger list, renders no Visa Details section,
and rendering succeeds — the legacy fallback operand of the `||` chain is
dead because the middle operand is always a (truthy) array. -/
theorem legacy_visa_object_never_rendered :
    legacyVisaBooking.visa =
      some { visaType := some "Umrah", nationality := some "PK",
             passportNumber := some "AB123456" } ∧
    legacyVisaBooking.visas = none ∧
    visaPassengersOf legacyVisaBooking = [] ∧
    visaItems legacyVisaBooking = [] ∧
    (⟨14, true, "Visa Details"⟩ : DocItem) ∉ renderedItems legacyVisaBooking ∧
    (renderBookingPdf legacyVisaBooking).toOption.isSome = true := by
  decide

/-- C6 (amended): a missing booking yields 404 before the renderer runs; a
found booking is rendered exactly when the caller is an admin, or the record
has no populated agent reference, or the agent's id equals the caller's;
only a non-admin caller on a booking owned by a different agent gets 403. -/
theorem pdf_auth_admin_owner_or_unassigned (found : Option Booking) (user : Caller) :
    (found = none → getBookingPdf found user = .error 404 "Booking not found") ∧
    (∀ b, found = some b →
      ((getBookingPdf found user = .rendered (renderBookingPdf b)) ↔
        (user.role = "admin" ∨ b.agent = none ∨
          ∃ a, b.agent = some a ∧ a._id = user._id)) ∧
      (user.role ≠ "admin" → (∀ a, b.agent = some a → a._id ≠ user._id) →
        b.agent ≠ none → getBookingPdf found user = .error 403 "Not authorized")) := by
  constructor
  · intro h; subst h; rfl
  · intro b hb; subst hb
    by_cases hadm : user.role = "admin"
    · have hres : getBookingPdf (some b) user = .rendered (renderBookingPdf b) := by
        simp [getBookingPdf, hadm]
      refine ⟨by rw [hres]; simp [hadm], fun h1 => absurd hadm h1⟩
    · cases hag : b.agent with
      | none =>
          have hres : getBookingPdf (some b) user = .rendered (renderBookingPdf b) := by
            simp [getBookingPdf, hag]
          exact ⟨by rw [hres]; simp, fun _ _ hne => absurd rfl hne⟩
      | some a =>
          by_cases hown : a._id = user._id
          · have hres : getBookingPdf (some b) user = .rendered (renderBookingPdf b) := by
              simp [getBookingPdf, hag, hown]
            refine ⟨by rw [hres]; simp [hag, hown], ?_⟩
            intro _ h2 _
            exact absurd hown (h2 a rfl)
          · have hres : getBookingPdf (some b) user = .error 403 "Not authorized" := by
              simp [getBookingPdf, hadm, hag, hown]
            refine ⟨by rw [hres]; simp [hadm, hag, hown], fun _ _ _ => hres⟩

/-- C6 counterexample: a non-admin caller who owns nothing still gets the
document rendered when the booking has no agent reference, instead of the
403 the claim requires for every non-admin non-owner. -/
theorem unassigned_booking_rendered_for_stranger :
    strangerCaller.role ≠ "admin" ∧
    orphanBooking.agent = none ∧
    getBookingPdf (some orphanBooking) strangerCaller =
      .rendered (renderBookingPdf orphanBooking) := by
  exact ⟨by decide, rfl, rfl⟩

/-- Witness for C6: 404 on a missing record; admin rendering on a found one. -/
theorem pdf_auth_admin_owner_or_unassigned_witness :
    getBookingPdf none strangerCaller = .error 404 "Booking not found" ∧
    getBookingPdf (some sampleBooking) adminCaller =
      .rendered (renderBookingPdf sampleBooking) := by
  refine ⟨(pdf_auth_admin_owner_or_unassigned none strangerCaller).1 rfl, ?_⟩
  exact ((pdf_auth_admin_owner_or_unassigned (some sampleBooking) adminCaller).2
    sampleBooking rfl).1.mpr (Or.inl rfl)

/-- Section fields of the body merge: replaced wholesale when provided,
untouched when absent. -/
theorem applyUpdateBody_sections (b : Booking) (req : UpdateReq) :
    (applyUpdateBody b req).flights = repl req.flights b.flights ∧
    (applyUpdateBody b req).hotels = repl req.hotels b.hotels ∧
    (applyUpdateBody b req).visas = repl req.visas b.visas ∧
    (applyUpdateBody b req).transportation = repl req.transportation b.transportation ∧
    (applyUpdateBody b req).transport = repl req.transport b.transport ∧
    (applyUpdateBody b req).costing = repl req.costing b.costing ∧
    (applyUpdateBody b req).flightPayments = repl req.flightPayments b.flightPayments ∧
    (applyUpdateBody b req).hotel = repl req.hotel b.hotel ∧
    (applyUpdateBody b req).visa = repl req.visa b.visa ∧
    (applyUpdateBody b req).payment = repl req.payment b.payment ∧
    (applyUpdateBody b req).paymentReceived = repl req.paymentReceived b.paymentReceived ∧
    (applyUpdateBody b req).paymentDue = repl req.paymentDue b.paymentDue := by
  unfold applyUpdateBody
  cases hfc : req.flight.bind (fun f => f.flightClass) <;> simp [hfc]

/-- C9: in every successful `updateBooking`, each optional section field
(`flights`, `hotels`, `visas`, `transportation`, `transport`, `costing`,
`flightPayments`, `hotel`, `visa`, `payment`, `paymentReceived`,
`paymentDue`) present in the request body replaces the stored section
wholesale (`repl` of a present value), and each absent field leaves the
stored section untouched (`repl` of an absent one) — no partial merging. -/
theorem update_sections_replace_wholesale
    (found : Option Booking) (user : Caller) (req : UpdateReq) (b b2 : Booking)
    (hfound : found = some b)
    (hok : updateBooking found user req = .updated b2) :
    b2.flights = repl req.flights b.flights ∧
    b2.hotels = repl req.hotels b.hotels ∧
    b2.visas = repl req.visas b.visas ∧
    b2.transportation = repl req.transportation b.transportation ∧
    b2.transport = repl req.transport b.transport ∧
    b2.costing = repl req.costing b.costing ∧
    b2.flightPayments = repl req.flightPayments b.flightPayments ∧
    b2.hotel = repl req.hotel b.hotel ∧
    b2.visa = repl req.visa b.visa ∧
    b2.payment = repl req.payment b.payment ∧
    b2.paymentReceived = repl req.paymentReceived b.paymentReceived ∧
    b2.paymentDue = repl req.paymentDue b.paymentDue := by
  subst hfound
  simp only [updateBooking] at hok
  split at hok
  · exact UpdateResult.noConfusion hok
  · split at hok
    · split at hok
      · exact UpdateResult.noConfusion hok
      · injection hok with hb
        subst hb
        exact applyUpdateBody_sections _ req
    · injection hok with hb
      subst hb
      exact applyUpdateBody_sections _ req

/-- Witness for C9: replacing `hotels` and `paymentDue` while leaving the
other sections absent. -/
theorem update_sections_replace_wholesale_witness :
    (applyUpdateBody sampleBooking sectionUpdateReq).hotels = some [hiltonHotel] ∧
    (applyUpdateBody sampleBooking sectionUpdateReq).paymentDue =
      some { amount := some 250, method := some "bank" } ∧
    (applyUpdateBody sampleBooking sectionUpdateReq).visas = none ∧
    (applyUpdateBody sampleBooking sectionUpdateReq).costing = none := by
  have h := update_sections_replace_wholesale (some sampleBooking) adminCaller
    sectionUpdateReq sampleBooking (applyUpdateBody sampleBooking sectionUpdateReq)
    rfl (by decide)
  exact ⟨h.2.1, h.2.2.2.2.2.2.2.2.2.2.2, h.2.2.1, h.2.2.2.2.2.1⟩

/-- Membership in a conditional block that is empty when the guard fails. -/
theorem mem_ite_left {α : Type} (x : α) {c : Prop} [Decidable c] (l : List α) :
    (x ∈ if c then l else []) ↔ c ∧ x ∈ l := by
  split <;> simp_all

/-- Membership in a conditional block that is empty when the guard holds. -/
theorem mem_ite_right {α : Type} (x : α) {c : Prop} [Decidable c] (l : List α) :
    (x ∈ if c then [] else l) ↔ ¬c ∧ x ∈ l := by
  split <;> simp_all

/-- A successful render is the concatenation of the section blocks, with the
two fallible sections resolved. -/
theorem renderBookingPdf_ok_decomp (b : Booking) (items : List DocItem)
    (h : renderBookingPdf b = .ok items) :
    ∃ travel pay, travelItems b = .ok travel ∧ paymentItems b = .ok pay ∧
      items = headerItems b ++ statusItems b ++ customerItems b ++ travel ++
        flightItems b ++ hotelItems b ++ visaItems b ++ transportItems b ++
        costingItems b ++ additionalItems b ++ pay := by
  cases ht : travelItems b with
  | error e => simp [renderBookingPdf, ht] at h
  | ok travel =>
      cases hp : paymentItems b with
      | error e => simp [renderBookingPdf, ht, hp] at h
      | ok pay =>
          refine ⟨travel, pay, rfl, rfl, ?_⟩
          simp [renderBookingPdf, ht, hp] at h
          simpa using h.symm

/-- A successful TRAVEL DATES section resolves all three date cells. -/
theorem travelItems_ok (b : Booking) (t : List DocItem)
    (h : travelItems b = .ok t) :
    ∃ d1 d2 d3, dateCell b.date = .ok d1 ∧ dateCell b.departureDate = .ok d2 ∧
      dateCell b.returnDate = .ok d3 ∧
      t = [⟨14, true, "TRAVEL DATES"⟩,
        ⟨11, false, "Booking Date: " ++ d1⟩,
        ⟨11, false, "Departure: " ++ d2⟩,
        ⟨11, false, "Return: " ++ d3⟩,
        ⟨11, false, "Package: " ++ jsOrStr b.package "—"⟩] := by
  cases hd : dateCell b.date with
  | error e => simp [travelItems, hd] at h
  | ok d1 =>
      cases hdep : dateCell b.departureDate with
      | error e => simp [travelItems, hd, hdep] at h
      | ok d2 =>
          cases hret : dateCell b.returnDate with
          | error e => simp [travelItems, hd, hdep, hret] at h
          | ok d3 =>
              refine ⟨d1, d2, d3, rfl, rfl, rfl, ?_⟩
              simp [travelItems, hd, hdep, hret] at h
              exact h.symm

/-- A successful Payment Details section resolves both payment blocks. -/
theorem paymentItems_ok (b : Booking) (p : List DocItem)
    (h : paymentItems b = .ok p) :
    ∃ recv due, paymentReceivedItems b.paymentReceived = .ok recv ∧
      paymentDueItems b.paymentDue = .ok due ∧
      p = [⟨14, true, "Payment Details"⟩] ++ recv ++ due ++
          legacyPaymentItems b ++ flightPaymentsItems b := by
  cases h1 : paymentReceivedItems b.paymentReceived with
  | error e => simp [paymentItems, h1] at h
  | ok recv =>
      cases h2 : paymentDueItems b.paymentDue with
      | error e => simp [paymentItems, h1, h2] at h
      | ok due =>
          refine ⟨recv, due, rfl, rfl, ?_⟩
          simp [paymentItems, h1, h2] at h
          simpa using h.symm

/-- No section heading sits in the header band. -/
theorem heading_notin_headerItems (b : Booking) (s : String) :
    (⟨14, true, s⟩ : DocItem) ∉ headerItems b := by
  simp [headerItems]

/-- No section heading sits in the status rows. -/
theorem heading_notin_statusItems (b : Booking) (s : String) :
    (⟨14, true, s⟩ : DocItem) ∉ statusItems b := by
  simp [statusItems]

/-- The only heading of the customer section. -/
theorem heading_mem_customerItems (b : Booking) (s : String) :
    ((⟨14, true, s⟩ : DocItem) ∈ customerItems b) ↔ s = "CUSTOMER INFORMATION" := by
  simp [customerItems, mem_ite_left, mem_ite_right]

/-- The only heading of the flight section — present unconditionally. -/
theorem heading_mem_flightItems (b : Booking) (s : String) :
    ((⟨14, true, s⟩ : DocItem) ∈ flightItems b) ↔ s = "FLIGHT DETAILS" := by
  simp [flightItems, mem_ite_left, mem_ite_right]

/-- The hotel heading appears exactly when the normalized stay list is
non-empty. -/
theorem heading_mem_hotelItems (b : Booking) (s : String) :
    ((⟨14, true, s⟩ : DocItem) ∈ hotelItems b) ↔
      (s = "Hotel Details" ∧ hotelsToShow b ≠ []) := by
  simp only [hotelItems]
  split
  · rename_i hpos
    simp [hotelBlock, List.length_pos.mp hpos]
    intro x i h _ heq hX
    subst heq
    simp at hX
  · rename_i hpos
    simp [List.length_eq_zero.mp (Nat.eq_zero_of_not_pos hpos)]

/-- The visa heading appears exactly when the normalized passenger list is
non-empty. -/
theorem heading_mem_visaItems (b : Booking) (s : String) :
    ((⟨14, true, s⟩ : DocItem) ∈ visaItems b) ↔
      (s = "Visa Details" ∧ visaPassengersOf b ≠ []) := by
  simp only [visaItems]
  split
  · rename_i hpos
    simp [visaBlock, List.length_pos.mp hpos]
    intro x i h _ heq hX
    subst heq
    simp at hX
  · rename_i hpos
    simp [List.length_eq_zero.mp (Nat.eq_zero_of_not_pos hpos)]

/-- The transportation heading appears exactly when the leg list is non-empty
or the loose type/pickup fallback fires. -/
theorem heading_mem_transportItems (b : Booking) (s : String) :
    ((⟨14, true, s⟩ : DocItem) ∈ transportItems b) ↔
      (s = "Transportation Details" ∧
        (transportLegsOf b ≠ [] ∨ transportLooseCond b = true)) := by
  simp only [transportItems]
  split
  · rename_i hpos
    simp [legBlock, List.length_pos.mp hpos]
    intro x i h _ heq hX
    subst heq
    simp at hX
  · rename_i hpos
    split
    · rename_i hloose
      simp [hloose]
    · rename_i hloose
      simp [List.length_eq_zero.mp (Nat.eq_zero_of_not_pos hpos), hloose]

/-- The costing heading appears exactly when the normalized row list is
non-empty. -/
theorem heading_mem_costingItems (b : Booking) (s : String) :
    ((⟨14, true, s⟩ : DocItem) ∈ costingItems b) ↔
      (s = "Costing Details" ∧ costingRowsOf b ≠ []) := by
  simp only [costingItems]
  split
  · rename_i hpos
    simp [costRowBlock, totalsItems, mem_ite_left, List.length_pos.mp hpos]
    intro x i h _ heq hX
    subst heq
    simp at hX
  · rename_i hpos
    simp [List.length_eq_zero.mp (Nat.eq_zero_of_not_pos hpos)]

/-- The additional-services heading appears exactly when the field is truthy. -/
theorem heading_mem_additionalItems (b : Booking) (s : String) :
    ((⟨14, true, s⟩ : DocItem) ∈ additionalItems b) ↔
      (s = "Additional Services" ∧ strTruthy b.additionalServices = true) := by
  simp only [additionalItems]
  split
  · rename_i hadd
    simp [hadd]
  · rename_i hadd
    simp [hadd]

/-- The Payment Received block holds no section heading. -/
theorem heading_notin_paymentReceivedItems (o : Option PaymentReceived)
    (recv : List DocItem) (h : paymentReceivedItems o = .ok recv) (s : String) :
    (⟨14, true, s⟩ : DocItem) ∉ recv := by
  cases o with
  | none =>
      simp [paymentReceivedItems] at h
      subst h
      simp
  | some pr =>
      cases hd : pr.date with
      | none =>
          simp [paymentReceivedItems, hd] at h
          subst h
          simp [mem_ite_left]
      | some v =>
          cases hv : toIsoSlice10 v with
          | error e => simp [paymentReceivedItems, hd, hv] at h
          | ok str =>
              simp [paymentReceivedItems, hd, hv] at h
              subst h
              simp [mem_ite_left]

/-- The Payment Due block holds no section heading. -/
theorem heading_notin_paymentDueItems (o : Option PaymentDue)
    (due : List DocItem) (h : paymentDueItems o = .ok due) (s : String) :
    (⟨14, true, s⟩ : DocItem) ∉ due := by
  cases o with
  | none =>
      simp [paymentDueItems] at h
      subst h
      simp
  | some pd =>
      cases hd : pd.dueDate with
      | none =>
          simp [paymentDueItems, hd] at h
          subst h
          simp [mem_ite_left]
      | some v =>
          cases hv : toIsoSlice10 v with
          | error e => simp [paymentDueItems, hd, hv] at h
          | ok str =>
              simp [paymentDueItems, hd, hv] at h
              subst h
              simp [mem_ite_left]

/-- The legacy Payment Method block holds no section heading. -/
theorem heading_notin_legacyPaymentItems (b : Booking) (s : String) :
    (⟨14, true, s⟩ : DocItem) ∉ legacyPaymentItems b := by
  cases hp : b.payment <;> simp [legacyPaymentItems, hp, mem_ite_left]

/-- The installment schedule holds no section heading. -/
theorem heading_notin_scheduleItems (o : Option (List InstallmentItem)) (s : String) :
    (⟨14, true, s⟩ : DocItem) ∉ scheduleItems o := by
  cases o with
  | none => simp [scheduleItems]
  | some sched =>
      simp only [scheduleItems]
      split
      · simp
      · simp

/-- The Flight Payment Plan block holds no section heading. -/
theorem heading_notin_flightPaymentsItems (b : Booking) (s : String) :
    (⟨14, true, s⟩ : DocItem) ∉ flightPaymentsItems b := by
  cases hf : b.flightPayments with
  | none => simp [flightPaymentsItems, hf]
  | some fp =>
      cases hcc : fp.creditCard <;> cases hin : fp.installment <;>
        simp [flightPaymentsItems, hf, hcc, hin, heading_notin_scheduleItems]

set_option maxHeartbeats 1000000 in
/-- The complete catalogue of section headings of a successful render: three
headings are unconditional (customer, travel dates, flight) plus the
unconditional Payment Details heading; the other five depend on their data. -/
theorem heading_mem_render (b : Booking) (items : List DocItem) (s : String)
    (hok : renderBookingPdf b = .ok items) :
    ((⟨14, true, s⟩ : DocItem) ∈ items) ↔
      (s = "CUSTOMER INFORMATION" ∨ s = "TRAVEL DATES" ∨ s = "FLIGHT DETAILS" ∨
       (s = "Hotel Details" ∧ hotelsToShow b ≠ []) ∨
       (s = "Visa Details" ∧ visaPassengersOf b ≠ []) ∨
       (s = "Transportation Details" ∧
         (transportLegsOf b ≠ [] ∨ transportLooseCond b = true)) ∨
       (s = "Costing Details" ∧ costingRowsOf b ≠ []) ∨
       (s = "Additional Services" ∧ strTruthy b.additionalServices = true) ∨
       s = "Payment Details") := by
  obtain ⟨travel, pay, ht, hp, hitems⟩ := renderBookingPdf_ok_decomp b items hok
  obtain ⟨d1, d2, d3, -, -, -, htt⟩ := travelItems_ok b travel ht
  obtain ⟨recv, due, hr, hdu, hpp⟩ := paymentItems_ok b pay hp
  have hrecv := heading_notin_paymentReceivedItems _ recv hr s
  have hdue := heading_notin_paymentDueItems _ due hdu s
  subst hitems
  subst htt
  subst hpp
  simp only [List.mem_append, List.mem_cons, List.mem_singleton, List.not_mem_nil]
  simp [heading_notin_headerItems b s, heading_notin_statusItems b s,
        heading_mem_customerItems, heading_mem_flightItems, heading_mem_hotelItems,
        heading_mem_visaItems, heading_mem_transportItems, heading_mem_costingItems,
        heading_mem_additionalItems, heading_notin_legacyPaymentItems b s,
        heading_notin_flightPaymentsItems b s, hrecv, hdue]
  tauto

/-- C4 (amended): a section among hotel, visa, transportation, costing with no
normalized data is omitted entirely (its heading never appears), but the
`FLIGHT DETAILS` and `Payment Details` headings are emitted unconditionally —
they appear even on a record with no flight or payment data. -/
theorem conditional_sections_but_flight_payment_headings_always
    (b : Booking) (items : List DocItem)
    (hok : renderBookingPdf b = .ok items)
    (hhot : hotelsToShow b = []) (hvis : visaPassengersOf b = [])
    (htr : transportLegsOf b = []) (hloose : transportLooseCond b = false)
    (hcost : costingRowsOf b = []) :
    (⟨14, true, "Hotel Details"⟩ : DocItem) ∉ items ∧
    (⟨14, true, "Visa Details"⟩ : DocItem) ∉ items ∧
    (⟨14, true, "Transportation Details"⟩ : DocItem) ∉ items ∧
    (⟨14, true, "Costing Details"⟩ : DocItem) ∉ items ∧
    (⟨14, true, "FLIGHT DETAILS"⟩ : DocItem) ∈ items ∧
    (⟨14, true, "Payment Details"⟩ : DocItem) ∈ items := by
  refine ⟨?_, ?_, ?_, ?_, ?_, ?_⟩
  · rw [heading_mem_render b items _ hok]
    simp [hhot]
  · rw [heading_mem_render b items _ hok]
    simp [hvis]
  · rw [heading_mem_render b items _ hok]
    simp [htr, hloose]
  · rw [heading_mem_render b items _ hok]
    simp [hcost]
  · rw [heading_mem_render b items _ hok]
    simp
  · rw [heading_mem_render b items _ hok]
    simp

/-- C4 counterexample: the record with no hotel, visa, transport, or costing
data still renders the `FLIGHT DETAILS` and `Payment Details` headings,
which the claim says must not appear for empty sections. -/
theorem flight_payment_headings_on_empty_sections :
    hotelsToShow bareBooking = [] ∧ visaPassengersOf bareBooking = [] ∧
    transportLegsOf bareBooking = [] ∧ costingRowsOf bareBooking = [] ∧
    bareBooking.additionalServices = none ∧
    (⟨14, true, "FLIGHT DETAILS"⟩ : DocItem) ∈ renderedItems bareBooking ∧
    (⟨14, true, "Payment Details"⟩ : DocItem) ∈ renderedItems bareBooking ∧
    (renderBookingPdf bareBooking).toOption.isSome = true := by decide

/-- Witness for C4 at the empty-sections record. -/
theorem conditional_sections_witness :
    (⟨14, true, "Hotel Details"⟩ : DocItem) ∉ renderedItems bareBooking ∧
    (⟨14, true, "Visa Details"⟩ : DocItem) ∉ renderedItems bareBooking ∧
    (⟨14, true, "Transportation Details"⟩ : DocItem) ∉ renderedItems bareBooking ∧
    (⟨14, true, "Costing Details"⟩ : DocItem) ∉ renderedItems bareBooking ∧
    (⟨14, true, "FLIGHT DETAILS"⟩ : DocItem) ∈ renderedItems bareBooking ∧
    (⟨14, true, "Payment Details"⟩ : DocItem) ∈ renderedItems bareBooking :=
  conditional_sections_but_flight_payment_headings_always bareBooking
    (renderedItems bareBooking) (by decide) (by decide) (by decide)
    (by decide) (by decide) (by decide)

/-- Rendering fails exactly when one of the two fallible sections fails. -/
theorem renderBookingPdf_error (b : Booking) :
    renderBookingPdf b = .error .rangeError ↔
      (travelItems b = .error .rangeError ∨ paymentItems b = .error .rangeError) := by
  cases ht : travelItems b with
  | error e => cases e; simp [renderBookingPdf, ht]
  | ok travel =>
      cases hp : paymentItems b with
      | error e => cases e; simp [renderBookingPdf, ht, hp]
      | ok pay => simp [renderBookingPdf, ht, hp]

/-- A malformed travel date aborts the TRAVEL DATES section. -/
theorem travelItems_invalid (b : Booking)
    (h : (∃ raw, b.date = some (.invalid raw)) ∨
         (∃ raw, b.departureDate = some (.invalid raw)) ∨
         (∃ raw, b.returnDate = some (.invalid raw))) :
    travelItems b = .error .rangeError := by
  rcases h with ⟨raw, hinv⟩ | ⟨raw, hinv⟩ | ⟨raw, hinv⟩
  · have h1 : dateCell b.date = .error .rangeError := by
      simp [dateCell, toIsoSlice10, hinv]
    simp [travelItems, h1]
  · have h2 : dateCell b.departureDate = .error .rangeError := by
      simp [dateCell, toIsoSlice10, hinv]
    cases hd : dateCell b.date with
    | error e => cases e; simp [travelItems, hd]
    | ok d1 => simp [travelItems, hd, h2]
  · have h3 : dateCell b.returnDate = .error .rangeError := by
      simp [dateCell, toIsoSlice10, hinv]
    cases hd : dateCell b.date with
    | error e => cases e; simp [travelItems, hd]
    | ok d1 =>
        cases hdep : dateCell b.departureDate with
        | error e => cases e; simp [travelItems, hd, hdep]
        | ok d2 => simp [travelItems, hd, hdep, h3]

/-- A malformed payment date aborts the Payment Details section. -/
theorem paymentItems_invalid (b : Booking)
    (h : (∃ pr raw, b.paymentReceived = some pr ∧ pr.date = some (.invalid raw)) ∨
         (∃ pd raw, b.paymentDue = some pd ∧ pd.dueDate = some (.invalid raw))) :
    paymentItems b = .error .rangeError := by
  rcases h with ⟨pr, raw, hpr, hdt⟩ | ⟨pd, raw, hpd, hdt⟩
  · have h1 : paymentReceivedItems b.paymentReceived = .error .rangeError := by
      simp [paymentReceivedItems, hpr, hdt, toIsoSlice10]
    simp [paymentItems, h1]
  · have h2 : paymentDueItems b.paymentDue = .error .rangeError := by
      simp [paymentDueItems, hpd, hdt, toIsoSlice10]
    cases h1 : paymentReceivedItems b.paymentReceived with
    | error e => cases e; simp [paymentItems, h1]
    | ok recv => simp [paymentItems, h1, h2]

/-- Payment Received block with a truthy valid date: the explicit row list,
`Date:` row included. -/
theorem paymentReceivedItems_valid (pr : PaymentReceived) (iso : String)
    (hd : pr.date = some (.valid iso)) :
    paymentReceivedItems (some pr) = .ok
      ([⟨11, true, "Payment Received:"⟩,
        ⟨10, false, "  Amount: $" ++ toString (jsOrNum pr.amount 0)⟩,
        ⟨10, false, "  Method: " ++ jsOrStr pr.method "—"⟩] ++
       [⟨10, false, "  Date: " ++ jsSlice10 iso⟩] ++
       (if strTruthy pr.reference then
          [⟨10, false, "  Reference: " ++ jsOrStr pr.reference ""⟩] else [])) := by
  simp [paymentReceivedItems, hd, toIsoSlice10]

/-- Payment Due block with a truthy valid due date: the explicit row list,
`Due Date:` row included. -/
theorem paymentDueItems_valid (pd : PaymentDue) (iso : String)
    (hd : pd.dueDate = some (.valid iso)) :
    paymentDueItems (some pd) = .ok
      ([⟨11, true, "Payment Due:"⟩,
        ⟨10, false, "  Amount: $" ++ toString (jsOrNum pd.amount 0)⟩,
        ⟨10, false, "  Method: " ++ jsOrStr pd.method "—"⟩] ++
       [⟨10, false, "  Due Date: " ++ jsSlice10 iso⟩] ++
       (if strTruthy pd.notes then
          [⟨10, false, "  Notes: " ++ jsOrStr pd.notes ""⟩] else [])) := by
  simp [paymentDueItems, hd, toIsoSlice10]

/-- Payment Received block with an absent date: no `Date:` row is emitted. -/
theorem paymentReceivedItems_no_date (pr : PaymentReceived) (hd : pr.date = none) :
    paymentReceivedItems (some pr) = .ok
      ([⟨11, true, "Payment Received:"⟩,
        ⟨10, false, "  Amount: $" ++ toString (jsOrNum pr.amount 0)⟩,
        ⟨10, false, "  Method: " ++ jsOrStr pr.method "—"⟩] ++
       (if strTruthy pr.reference then
          [⟨10, false, "  Reference: " ++ jsOrStr pr.reference ""⟩] else [])) := by
  simp [paymentReceivedItems, hd]

/-- Payment Due block with an absent due date: no `Due Date:` row is emitted. -/
theorem paymentDueItems_no_date (pd : PaymentDue) (hd : pd.dueDate = none) :
    paymentDueItems (some pd) = .ok
      ([⟨11, true, "Payment Due:"⟩,
        ⟨10, false, "  Amount: $" ++ toString (jsOrNum pd.amount 0)⟩,
        ⟨10, false, "  Method: " ++ jsOrStr pd.method "—"⟩] ++
       (if strTruthy pd.notes then
          [⟨10, false, "  Notes: " ++ jsOrStr pd.notes ""⟩] else [])) := by
  simp [paymentDueItems, hd]

/-- C5 (amended): a present, parseable date renders as the first ten
characters of its ISO timestamp (the `YYYY-MM-DD` calendar date, no
time-of-day); an absent booking/departure/return date renders as the
placeholder dash in its row; an absent payment date omits the `Date:`/`Due
Date:` row instead; and a present date-like value that fails to parse makes
the renderer raise (`RangeError`) rather than render a dash. -/
theorem date_rows_dash_iso_or_raise (b : Booking) :
    (∀ items, renderBookingPdf b = .ok items →
      ((b.date = none → (⟨11, false, "Booking Date: —"⟩ : DocItem) ∈ items) ∧
       (∀ iso, b.date = some (.valid iso) →
          (⟨11, false, "Booking Date: " ++ jsSlice10 iso⟩ : DocItem) ∈ items) ∧
       (b.departureDate = none → (⟨11, false, "Departure: —"⟩ : DocItem) ∈ items) ∧
       (∀ iso, b.departureDate = some (.valid iso) →
          (⟨11, false, "Departure: " ++ jsSlice10 iso⟩ : DocItem) ∈ items) ∧
       (b.returnDate = none → (⟨11, false, "Return: —"⟩ : DocItem) ∈ items) ∧
       (∀ iso, b.returnDate = some (.valid iso) →
          (⟨11, false, "Return: " ++ jsSlice10 iso⟩ : DocItem) ∈ items) ∧
       (∀ pr iso, b.paymentReceived = some pr → pr.date = some (.valid iso) →
          (⟨10, false, "  Date: " ++ jsSlice10 iso⟩ : DocItem) ∈ items) ∧
       (∀ pd iso, b.paymentDue = some pd → pd.dueDate = some (.valid iso) →
          (⟨10, false, "  Due Date: " ++ jsSlice10 iso⟩ : DocItem) ∈ items))) ∧
    (∀ raw, (b.date = some (.invalid raw) ∨ b.departureDate = some (.invalid raw) ∨
             b.returnDate = some (.invalid raw)) →
       renderBookingPdf b = .error .rangeError) ∧
    (∀ pr raw, b.paymentReceived = some pr → pr.date = some (.invalid raw) →
       renderBookingPdf b = .error .rangeError) ∧
    (∀ pd raw, b.paymentDue = some pd → pd.dueDate = some (.invalid raw) →
       renderBookingPdf b = .error .rangeError) ∧
    (∀ pr, b.paymentReceived = some pr → pr.date = none →
       paymentReceivedItems (some pr) = .ok
         ([⟨11, true, "Payment Received:"⟩,
           ⟨10, false, "  Amount: $" ++ toString (jsOrNum pr.amount 0)⟩,
           ⟨10, false, "  Method: " ++ jsOrStr pr.method "—"⟩] ++
          (if strTruthy pr.reference then
             [⟨10, false, "  Reference: " ++ jsOrStr pr.reference ""⟩] else []))) ∧
    (∀ pd, b.paymentDue = some pd → pd.dueDate = none →
       paymentDueItems (some pd) = .ok
         ([⟨11, true, "Payment Due:"⟩,
           ⟨10, false, "  Amount: $" ++ toString (jsOrNum pd.amount 0)⟩,
           ⟨10, false, "  Method: " ++ jsOrStr pd.method "—"⟩] ++
          (if strTruthy pd.notes then
             [⟨10, false, "  Notes: " ++ jsOrStr pd.notes ""⟩] else []))) := by
  refine ⟨?_, ?_, ?_, ?_, ?_, ?_⟩
  · intro items hok
    obtain ⟨travel, pay, ht, hp, hitems⟩ := renderBookingPdf_ok_decomp b items hok
    obtain ⟨d1, d2, d3, hd1, hd2, hd3, htt⟩ := travelItems_ok b travel ht
    obtain ⟨recv, due, hr, hdu, hpp⟩ := paymentItems_ok b pay hp
    subst hitems
    subst htt
    subst hpp
    refine ⟨?_, ?_, ?_, ?_, ?_, ?_, ?_, ?_⟩
    · intro h0
      rw [h0] at hd1
      simp [dateCell] at hd1
      subst hd1
      simp [List.mem_append]
    · intro iso hiso
      rw [hiso] at hd1
      simp [dateCell, toIsoSlice10] at hd1
      subst hd1
      simp [List.mem_append]
    · intro h0
      rw [h0] at hd2
      simp [dateCell] at hd2
      subst hd2
      simp [List.mem_append]
    · intro iso hiso
      rw [hiso] at hd2
      simp [dateCell, toIsoSlice10] at hd2
      subst hd2
      simp [List.mem_append]
    · intro h0
      rw [h0] at hd3
      simp [dateCell] at hd3
      subst hd3
      simp [List.mem_append]
    · intro iso hiso
      rw [hiso] at hd3
      simp [dateCell, toIsoSlice10] at hd3
      subst hd3
      simp [List.mem_append]
    · intro pr iso hpr hdt
      rw [hpr, paymentReceivedItems_valid pr iso hdt] at hr
      injection hr with h
      subst h
      simp [List.mem_append]
    · intro pd iso hpd hdt
      rw [hpd, paymentDueItems_valid pd iso hdt] at hdu
      injection hdu with h
      subst h
      simp [List.mem_append]
  · intro raw hcase
    rw [renderBookingPdf_error b]
    left
    apply travelItems_invalid
    rcases hcase with h | h | h
    · exact Or.inl ⟨raw, h⟩
    · exact Or.inr (Or.inl ⟨raw, h⟩)
    · exact Or.inr (Or.inr ⟨raw, h⟩)
  · intro pr raw hpr hdt
    rw [renderBookingPdf_error b]
    right
    exact paymentItems_invalid b (Or.inl ⟨pr, raw, hpr, hdt⟩)
  · intro pd raw hpd hdt
    rw [renderBookingPdf_error b]
    right
    exact paymentItems_invalid b (Or.inr ⟨pd, raw, hpd, hdt⟩)
  · intro pr _ hdt
    exact paymentReceivedItems_no_date pr hdt
  · intro pd _ hdt
    exact paymentDueItems_no_date pd hdt

/-- C5 counterexample: a stored booking date that fails to parse makes the
renderer raise instead of rendering the placeholder dash, and an absent
payment-received date omits the `Date:` row instead of rendering a dash. -/
theorem invalid_date_raises_absent_payment_date_omits_row :
    renderBookingPdf invalidDateBooking = .error .rangeError ∧
    paymentReceivedItems (some { amount := some 100, method := some "cash" }) =
      .ok [⟨11, true, "Payment Received:"⟩, ⟨10, false, "  Amount: $100"⟩,
           ⟨10, false, "  Method: cash"⟩] := by decide

/-- Witness for C5 at concrete records covering dash, ISO slice, omitted
payment-date row, and the raising case. -/
theorem date_rows_dash_iso_or_raise_witness :
    (⟨11, false, "Booking Date: —"⟩ : DocItem) ∈ renderedItems dateShowBooking ∧
    (⟨11, false, "Departure: " ++ jsSlice10 "2024-05-10T00:00:00.000Z"⟩ : DocItem) ∈
      renderedItems dateShowBooking ∧
    (⟨10, false, "  Date: " ++ jsSlice10 "2024-05-03T12:30:00.000Z"⟩ : DocItem) ∈
      renderedItems dateShowBooking ∧
    paymentDueItems (some { amount := some 50, dueDate := none }) =
      .ok ([⟨11, true, "Payment Due:"⟩,
            ⟨10, false, "  Amount: $" ++ toString (jsOrNum (some 50) 0)⟩,
            ⟨10, false, "  Method: " ++ jsOrStr none "—"⟩] ++
           (if strTruthy none then
              [⟨10, false, "  Notes: " ++ jsOrStr none ""⟩] else [])) ∧
    renderBookingPdf invalidDateBooking = .error .rangeError := by
  have h := date_rows_dash_iso_or_raise dateShowBooking
  have hmem := h.1 (renderedItems dateShowBooking) (by decide)
  have hbad := (date_rows_dash_iso_or_raise invalidDateBooking).2.1 "not-a-date"
    (Or.inl rfl)
  refine ⟨hmem.1 rfl, hmem.2.2.2.1 "2024-05-10T00:00:00.000Z" rfl, ?_, ?_, hbad⟩
  · exact hmem.2.2.2.2.2.2.1
      { amount := some 100, method := some "cash",
        date := some (.valid "2024-05-03T12:30:00.000Z") }
      "2024-05-03T12:30:00.000Z" rfl rfl
  · exact h.2.2.2.2.2 { amount := some 50, dueDate := none } rfl rfl
